import Mathlib

/-!
Verification of the field-metadata resolution engine of `pydantic/fields.py`.

The definitions below are a shallow embedding of the source file
`src/pydantic/fields.py`.  Python's dynamically typed values are embedded as
the inductive type `Val`; the two sentinels `Undefined` (from
`pydantic._internal._fields`, outside `src/`) and the `Ellipsis` literal are
constructors of `Val`.  Annotations are embedded as the inductive type `Ann`,
whose `annotated` constructor models `typing.Annotated[first, *extras]`;
the external hooks `_typing_extra.is_annotated`, `typing_extensions.get_args`
and `_typing_extra.is_finalvar` (outside `src/`) are modelled from the spec as
structural pattern matches on `Ann`.  Field names follow the source except
that the source name `annotation` is shortened to `annot`, `rebuild_annotation`
to `rebuild_annot`, `from_annotation` to `from_annot`, and the source field
`include` is written `include'`.
-/

set_option autoImplicit false

namespace Pydantic

/-- Embedded Python values used by the engine: the `Undefined` sentinel,
the `Ellipsis` literal, `None`, booleans, integers (embedding Python
numbers), strings, lists, and opaque objects identified by a tag. -/
inductive Val : Type where
  | undefined
  | ellipsis
  | none
  | bool (b : Bool)
  | int (n : Int)
  | str (s : String)
  | listV (vs : List Val)
  | obj (tag : Nat)

/-- Models the Python identity test `v is Undefined`. -/
def Val.isUndefined : Val → Bool
  | Val.undefined => true
  | _ => false

/-- Models the Python identity test `v is Ellipsis`. -/
def Val.isEllipsis : Val → Bool
  | Val.ellipsis => true
  | _ => false

/-- One segment of an `AliasPath`: a string key or an integer index. -/
inductive PathSeg : Type where
  | key (s : String)
  | idx (n : Int)

/-- The value of the `validation_alias` option: a plain string, an
`AliasPath` (its list of segments), an `AliasChoices` (each choice a plain
name or a path), or an arbitrary object of the wrong type (`invalid`),
kept so that the shape check in `Field` remains meaningful. -/
inductive VAlias : Type where
  | str (s : String)
  | path (segs : List PathSeg)
  | choices (cs : List (Sum String (List PathSeg)))
  | invalid (tag : Nat)

/-- Python truthiness of a `validation_alias` value: the empty string is
falsy, every other value of the union is a truthy object. -/
def VAlias.pyTruthy : VAlias → Bool
  | VAlias.str s => !s.isEmpty
  | _ => true

/-- The `isinstance(validation_alias, (str, AliasChoices, AliasPath))`
shape test performed by `Field` (true when the check passes or the value
is falsy so the check is skipped). -/
def validationAliasShapeOk : Option VAlias → Bool
  | some (VAlias.invalid _) => false
  | _ => true

/-- The record of `FieldInfo` attributes (`__slots__` of the source class),
parametrised by the type of annotations `A` and of metadata items `I` so
that it can appear nested inside the mutual inductive below.  The source
attribute `annotation` is named `annot`, `alias` is named `alias'` and
`include` is named `include'` (both are Lean keywords). -/
structure FieldInfoA (A I : Type) where
  annot : Option A := Option.none
  default : Val := Val.undefined
  default_factory : Option (Unit → Val) := Option.none
  alias' : Option String := Option.none
  alias_priority : Option Int := Option.none
  validation_alias : Option VAlias := Option.none
  serialization_alias : Option String := Option.none
  title : Option String := Option.none
  description : Option String := Option.none
  examples : Option (List Val) := Option.none
  exclude : Option Bool := Option.none
  include' : Option Bool := Option.none
  discriminator : Option String := Option.none
  json_schema_extra : Option (List (String × Val)) := Option.none
  frozen : Option Bool := Option.none
  final : Option Bool := Option.none
  validate_default : Option Bool := Option.none
  repr : Bool := true
  init_var : Option Bool := Option.none
  kw_only : Option Bool := Option.none
  metadata : List I := []

mutual
/-- Embedded type annotations.  `base` is a plain type named by a string,
`noneTy` is Python `None` used as a type, `anyTy` is `typing.Any`,
`finalBare` is bare `typing_extensions.Final`, `finalOf a` is `Final[a]`,
`initVarBare` is bare `dataclasses.InitVar`, `initVarOf a` is an
`InitVar` instance with `.type = a`, and `annotated first extras` is
`Annotated[first, *extras]` (`first` is optional because the stored
`FieldInfo` annotation, which may be Python `None`, is re-embedded by
`rebuild_annot`). -/
inductive Ann : Type where
  | base (t : String)
  | noneTy
  | anyTy
  | finalBare
  | finalOf (a : Ann)
  | initVarBare
  | initVarOf (a : Ann)
  | annotated (first : Option Ann) (extras : List AnnItem)

/-- One element of `Annotated[...]` extras or of `FieldInfo.metadata`:
an embedded `FieldInfo`, one of the dedicated constraint tokens built by
`metadata_lookup` (`types.Strict`, `annotated_types.Gt/Ge/Lt/Le/
MultipleOf/MinLen/MaxLen`), the shared `PydanticGeneralMetadata` bucket
(modelled from the spec: one token holding the four bucketed keywords),
or an arbitrary opaque metadata object (`other`). -/
inductive AnnItem : Type where
  | info (fi : FieldInfoA Ann AnnItem)
  | strict (b : Bool)
  | gt (v : Int)
  | ge (v : Int)
  | lt (v : Int)
  | le (v : Int)
  | multipleOf (v : Int)
  | minLen (n : Nat)
  | maxLen (n : Nat)
  | generalMetadata (pattern : Option String) (allowInfNan : Option Bool)
      (maxDigits : Option Nat) (decimalPlaces : Option Nat)
  | other (tag : Nat)
end

/-- The canonical field descriptor: `FieldInfo` of the source. -/
abbrev FieldInfo : Type := FieldInfoA Ann AnnItem

/-- Models `_typing_extra.is_annotated` (external hook, modelled from the
spec: recognise the Annotated form). -/
def isAnnotated : Ann → Bool
  | Ann.annotated _ _ => true
  | _ => false

/-- Models `_typing_extra.is_finalvar` (external hook, modelled from the
spec: recognise bare `Final` and `Final[X]`). -/
def isFinalvar : Ann → Bool
  | Ann.finalBare => true
  | Ann.finalOf _ => true
  | _ => false

/-- `is_finalvar` applied to a possibly-`None` first argument of an
`Annotated` form (`is_finalvar(None)` is false). -/
def isFinalvarOpt : Option Ann → Bool
  | some a => isFinalvar a
  | Option.none => false

/-- Models `isinstance(a, FieldInfo)` on a metadata item. -/
def AnnItem.isInfo : AnnItem → Bool
  | AnnItem.info _ => true
  | _ => false

/-- Models `FieldInfo._find_field_info_arg`: the first `FieldInfo`
instance in the argument list, if any. -/
def find_field_info_arg (args : List AnnItem) : Option FieldInfo :=
  args.findSome? (fun i => match i with
    | AnnItem.info fi => some fi
    | _ => Option.none)

/-- Models `FieldInfo._extract_metadata`: if the annotation is an
`Annotated` form, unwrap it; finding an embedded `FieldInfo` there is the
"Field may not be used twice" construction error. -/
def extract_metadata (a : Option Ann) : Except String (Option Ann × List AnnItem) :=
  match a with
  | some (Ann.annotated first extras) =>
      if (find_field_info_arg extras).isSome then
        Except.error "Field may not be used twice on the same field"
      else
        Except.ok (first, extras)
  | _ => Except.ok (a, [])

/-- The keyword arguments accepted by `FieldInfo.__init__`
(`_FieldInfoInputs` of the source).  A field that is `Option.none` models
an absent keyword (for every keyword of the source, passing `None`
explicitly behaves like omitting it, and `default` absent is modelled by
the `Undefined` sentinel, matching `kwargs.pop('default', Undefined)`). -/
structure FieldInfoKwargs where
  annot : Option Ann := Option.none
  default : Val := Val.undefined
  default_factory : Option (Unit → Val) := Option.none
  alias' : Option String := Option.none
  alias_priority : Option Int := Option.none
  validation_alias : Option VAlias := Option.none
  serialization_alias : Option String := Option.none
  title : Option String := Option.none
  description : Option String := Option.none
  examples : Option (List Val) := Option.none
  exclude : Option Bool := Option.none
  include' : Option Bool := Option.none
  discriminator : Option String := Option.none
  json_schema_extra : Option (List (String × Val)) := Option.none
  frozen : Option Bool := Option.none
  final : Option Bool := Option.none
  validate_default : Option Bool := Option.none
  repr : Bool := true
  init_var : Option Bool := Option.none
  kw_only : Option Bool := Option.none
  strict : Option Bool := Option.none
  gt : Option Int := Option.none
  ge : Option Int := Option.none
  lt : Option Int := Option.none
  le : Option Int := Option.none
  multiple_of : Option Int := Option.none
  min_length : Option Nat := Option.none
  max_length : Option Nat := Option.none
  pattern : Option String := Option.none
  allow_inf_nan : Option Bool := Option.none
  max_digits : Option Nat := Option.none
  decimal_places : Option Nat := Option.none

/-- Models `FieldInfo._collect_metadata` together with the
`metadata_lookup` table: each constraint keyword with a non-`None` value
either appends its dedicated token (`strict`, `gt`, `ge`, `lt`, `le`,
`multiple_of`, `min_length`, `max_length`, in the iteration order of the
keyword dictionary built by `Field`/`from_field`) or is accumulated into
the shared `generalMetadata` bucket (`pattern`, `allow_inf_nan`,
`max_digits`, `decimal_places`), which is appended once at the end when
non-empty. -/
def collect_metadata (k : FieldInfoKwargs) : List AnnItem :=
  let dedicated : List AnnItem :=
    (match k.strict with | some b => [AnnItem.strict b] | Option.none => []) ++
    (match k.gt with | some v => [AnnItem.gt v] | Option.none => []) ++
    (match k.ge with | some v => [AnnItem.ge v] | Option.none => []) ++
    (match k.lt with | some v => [AnnItem.lt v] | Option.none => []) ++
    (match k.le with | some v => [AnnItem.le v] | Option.none => []) ++
    (match k.multiple_of with | some v => [AnnItem.multipleOf v] | Option.none => []) ++
    (match k.min_length with | some n => [AnnItem.minLen n] | Option.none => []) ++
    (match k.max_length with | some n => [AnnItem.maxLen n] | Option.none => [])
  let hasGeneral : Bool :=
    k.pattern.isSome || k.allow_inf_nan.isSome || k.max_digits.isSome || k.decimal_places.isSome
  dedicated ++
    (if hasGeneral then
      [AnnItem.generalMetadata k.pattern k.allow_inf_nan k.max_digits k.decimal_places]
     else [])

/-- Models `FieldInfo.__init__`: extract annotation metadata, normalise an
`Ellipsis` default to `Undefined`, reject a concrete default combined
with a `default_factory`, resolve `alias_priority` by the truthiness rule
`kwargs.pop('alias_priority', None) or 2 if self.alias is not None else
None`, and collect constraint metadata followed by annotation metadata. -/
def FieldInfo.init (k : FieldInfoKwargs) : Except String FieldInfo :=
  match extract_metadata k.annot with
  | Except.error e => Except.error e
  | Except.ok (ann1, annMd) =>
      let d : Val := if k.default.isEllipsis then Val.undefined else k.default
      if !d.isUndefined && k.default_factory.isSome then
        Except.error "cannot specify both default and default_factory"
      else
        Except.ok
          { annot := ann1
            default := d
            default_factory := k.default_factory
            alias' := k.alias'
            alias_priority :=
              if k.alias'.isSome then
                some (match k.alias_priority with
                      | some p => if p = 0 then 2 else p
                      | Option.none => 2)
              else Option.none
            validation_alias := k.validation_alias
            serialization_alias := k.serialization_alias
            title := k.title
            description := k.description
            examples := k.examples
            exclude := k.exclude
            include' := k.include'
            discriminator := k.discriminator
            json_schema_extra := k.json_schema_extra
            frozen := k.frozen
            final := k.final
            validate_default := k.validate_default
            repr := k.repr
            init_var := k.init_var
            kw_only := k.kw_only
            metadata := collect_metadata k ++ annMd }

/-- Models `FieldInfo.from_field`: forwards the default and the remaining
keyword options to the constructor; an `annotation` keyword is rejected. -/
def FieldInfo.from_field (default : Val) (k : FieldInfoKwargs) : Except String FieldInfo :=
  if k.annot.isSome then
    Except.error "annotation is not permitted as a Field keyword argument"
  else
    FieldInfo.init { k with default := default }

/-- Models `FieldInfo.from_annotation` (here `from_annot`): unwrap a
`Final` wrapper, then, for an `Annotated` form embedding a `FieldInfo`,
copy it, overwrite its annotation with the first argument, set the final
flag and append the non-`FieldInfo` extras to its metadata; otherwise
construct a fresh descriptor from the annotation alone. -/
def from_annot (a : Ann) : Except String FieldInfo :=
  let fa : Bool × Ann :=
    match a with
    | Ann.finalBare => (true, Ann.finalBare)
    | Ann.finalOf b => (true, b)
    | b => (false, b)
  match fa.2 with
  | Ann.annotated first extras =>
      let final2 : Bool := fa.1 || isFinalvarOpt first
      match find_field_info_arg extras with
      | some fi =>
          Except.ok { fi with
            annot := first
            final := some final2
            metadata := fi.metadata ++ extras.filter (fun i => !i.isInfo) }
      | Option.none =>
          FieldInfo.init { annot := some (Ann.annotated first extras), final := some final2 }
  | b => FieldInfo.init { annot := some b, final := some fa.1 }

/-- The `**extra` catch-all of the `Field` builder: the deprecated or
removed legacy options that `Field` pops from it (`const`, `min_items`,
`max_items`, `unique_items`, `allow_mutation`, `regex`; `Option.none`
models an absent or explicitly-`None` key) and the residual unrecognized
keywords (`rest`, an insertion-ordered mapping). -/
structure ExtraArgs where
  const : Option Val := Option.none
  min_items : Option Nat := Option.none
  max_items : Option Nat := Option.none
  unique_items : Option Val := Option.none
  allow_mutation : Option Bool := Option.none
  regex : Option Val := Option.none
  rest : List (String × Val) := []

/-- The arguments of the public `Field` builder: the enumerated options
plus the `**extra` catch-all (`ExtraArgs`). -/
structure FieldArgs where
  default : Val := Val.undefined
  default_factory : Option (Unit → Val) := Option.none
  alias' : Option String := Option.none
  alias_priority : Option Int := Option.none
  validation_alias : Option VAlias := Option.none
  serialization_alias : Option String := Option.none
  title : Option String := Option.none
  description : Option String := Option.none
  examples : Option (List Val) := Option.none
  exclude : Option Bool := Option.none
  include' : Option Bool := Option.none
  discriminator : Option String := Option.none
  json_schema_extra : Option (List (String × Val)) := Option.none
  frozen : Option Bool := Option.none
  final : Option Bool := Option.none
  validate_default : Option Bool := Option.none
  repr : Bool := true
  init_var : Option Bool := Option.none
  kw_only : Option Bool := Option.none
  pattern : Option String := Option.none
  strict : Option Bool := Option.none
  gt : Option Int := Option.none
  ge : Option Int := Option.none
  lt : Option Int := Option.none
  le : Option Int := Option.none
  multiple_of : Option Int := Option.none
  allow_inf_nan : Option Bool := Option.none
  max_digits : Option Nat := Option.none
  decimal_places : Option Nat := Option.none
  min_length : Option Nat := Option.none
  max_length : Option Nat := Option.none
  extra : ExtraArgs := {}

/-- Models the Python expression `validation_alias or alias` forwarded by
`Field` (a falsy `validation_alias` falls back to the plain alias). -/
def effectiveValidationAlias (va : Option VAlias) (al : Option String) : Option VAlias :=
  match va with
  | some v => if v.pyTruthy then some v else al.map VAlias.str
  | Option.none => al.map VAlias.str

/-- Python falsiness of the `json_schema_extra` option (`None` or an
empty mapping). -/
def jseFalsy : Option (List (String × Val)) → Bool
  | Option.none => true
  | some l => l.isEmpty

/-- Models the public builder `Field`: reject the removed legacy options
(`const`, `unique_items`, `regex`), translate the deprecated ones
(`min_items`/`max_items` onto `min_length`/`max_length` when the new
option is absent, `allow_mutation is False` onto `frozen`), fold residual
keywords into `json_schema_extra` when that option is falsy, check the
shape of a truthy `validation_alias`, backfill `serialization_alias` from
a string `alias`, forward `validation_alias or alias`, and delegate to
`from_field`.  Deprecation warnings are returned alongside the descriptor
(in the source they go to the global warning channel; a raised error
aborts construction, so warnings are only observable on success). -/
def Field (a : FieldArgs) : Except String (List String × FieldInfo) :=
  if (a.extra.const).isSome then
    Except.error "`const` is removed, use `Literal` instead"
  else
  let min_length : Option Nat :=
    match a.extra.min_items with
    | some mi => match a.min_length with | Option.none => some mi | some ml => some ml
    | Option.none => a.min_length
  let wMin : List String :=
    if (a.extra.min_items).isSome then
      ["`min_items` is deprecated and will be removed, use `min_length` instead"]
    else []
  let max_length : Option Nat :=
    match a.extra.max_items with
    | some mi => match a.max_length with | Option.none => some mi | some ml => some ml
    | Option.none => a.max_length
  let wMax : List String :=
    if (a.extra.max_items).isSome then
      ["`max_items` is deprecated and will be removed, use `max_length` instead"]
    else []
  if (a.extra.unique_items).isSome then
    Except.error "`unique_items` is removed, use `Set` instead(this feature is discussed in https://github.com/pydantic/pydantic-core/issues/296)"
  else
  let frozen : Option Bool :=
    if a.extra.allow_mutation = some false then some true else a.frozen
  let wMut : List String :=
    if (a.extra.allow_mutation).isSome then
      ["`allow_mutation` is deprecated and will be removed. use `frozen` instead"]
    else []
  if (a.extra.regex).isSome then
    Except.error "`regex` is removed. use `pattern` instead"
  else
  let wExtra : List String :=
    if a.extra.rest.isEmpty then []
    else ["Extra keyword arguments on `Field` is deprecated and will be removed. use `json_schema_extra` instead"]
  let json_schema_extra : Option (List (String × Val)) :=
    if !a.extra.rest.isEmpty && jseFalsy a.json_schema_extra then some a.extra.rest
    else a.json_schema_extra
  if !(validationAliasShapeOk a.validation_alias) then
    Except.error "Invalid `validation_alias` type. it should be `str`, `AliasChoices`, or `AliasPath`"
  else
  let serialization_alias : Option String :=
    match a.serialization_alias, a.alias' with
    | Option.none, some al => some al
    | sa, _ => sa
  Except.map (fun fi => (wMin ++ wMax ++ wMut ++ wExtra, fi))
    (FieldInfo.from_field a.default
      { default_factory := a.default_factory
        alias' := a.alias'
        alias_priority := a.alias_priority
        validation_alias := effectiveValidationAlias a.validation_alias a.alias'
        serialization_alias := serialization_alias
        title := a.title
        description := a.description
        examples := a.examples
        exclude := a.exclude
        include' := a.include'
        discriminator := a.discriminator
        json_schema_extra := json_schema_extra
        frozen := frozen
        final := a.final
        pattern := a.pattern
        validate_default := a.validate_default
        repr := a.repr
        init_var := a.init_var
        kw_only := a.kw_only
        strict := a.strict
        gt := a.gt
        ge := a.ge
        lt := a.lt
        le := a.le
        multiple_of := a.multiple_of
        min_length := min_length
        max_length := max_length
        allow_inf_nan := a.allow_inf_nan
        max_digits := a.max_digits
        decimal_places := a.decimal_places })

/-- An external `dataclasses.Field` declaration, as read by
`FieldInfo._from_dataclass_field` and `from_annotated_attribute`.
`default`/`default_factory` being `Option.none` models the
`dataclasses.MISSING` sentinel; `metadata` models the freeform
`dc_field.metadata` mapping forwarded as keyword arguments into `Field`
(assumed not to contain the `default`, `default_factory` or `repr` keys,
which the source passes positionally, so its corresponding fields are
overwritten); `type` is the declared field type and `kw_only` models
`getattr(default, 'kw_only', None)`. -/
structure DCField where
  default : Option Val := Option.none
  default_factory : Option (Unit → Val) := Option.none
  repr : Bool := true
  type : Option Ann := Option.none
  metadata : FieldArgs := {}
  kw_only : Option Bool := Option.none

/-- Models `FieldInfo._from_dataclass_field` (here `from_dataclass_field`):
map the `MISSING` sentinels, call `Field` with the declaration's freeform
metadata options, then overwrite the annotation and append metadata
extracted from the declared field type. -/
def from_dataclass_field (dc : DCField) : Except String (List String × FieldInfo) :=
  match Field { dc.metadata with
                  default := dc.default.getD Val.undefined
                  default_factory := dc.default_factory
                  repr := dc.repr } with
  | Except.error e => Except.error e
  | Except.ok (ws, field) =>
      match extract_metadata dc.type with
      | Except.error e => Except.error e
      | Except.ok (ann2, md) =>
          Except.ok (ws, { field with annot := ann2, metadata := field.metadata ++ md })

/-- Models `FieldInfo.is_required`: no concrete default and no factory. -/
def FieldInfo.is_required (fi : FieldInfo) : Bool :=
  fi.default.isUndefined && fi.default_factory.isNone

/-- The possible `default` argument of `from_annotated_attribute`, split
by the `isinstance` dispatch of the source: a `FieldInfo`, an external
`dataclasses.Field`, or a plain value. -/
inductive AttrDefault : Type where
  | info (fi : FieldInfo)
  | dcField (dc : DCField)
  | val (v : Val)

/-- Models `FieldInfo.from_annotated_attribute`: unwrap a `Final`
wrapper; if the default is a `FieldInfo`, re-extract metadata from the
annotation and merge into it; if it is a dataclass field, translate it
and do the same plus the `InitVar` and `kw_only` handling; otherwise, if
the annotation embeds a `FieldInfo`, fail when that descriptor already
has a default ("Default may not be specified twice on the same field"),
else copy it with the new default; else construct fresh.  Warnings
produced by the dataclass translation go to the source's global warning
channel and are not returned here. -/
def from_annotated_attribute (a : Ann) (default : AttrDefault) : Except String FieldInfo :=
  let fa : Bool × Ann :=
    match a with
    | Ann.finalBare => (true, Ann.finalBare)
    | Ann.finalOf b => (true, b)
    | b => (false, b)
  match default with
  | AttrDefault.info fi =>
      match extract_metadata (some fa.2) with
      | Except.error e => Except.error e
      | Except.ok (ann2, md) =>
          Except.ok { fi with annot := ann2, metadata := fi.metadata ++ md, final := some fa.1 }
  | AttrDefault.dcField dc =>
      let ia : Bool × Ann :=
        match fa.2 with
        | Ann.initVarBare => (true, Ann.anyTy)
        | Ann.initVarOf t => (true, t)
        | b => (false, b)
      match from_dataclass_field dc with
      | Except.error e => Except.error e
      | Except.ok (_, pf) =>
          match extract_metadata (some ia.2) with
          | Except.error e => Except.error e
          | Except.ok (ann3, md) =>
              Except.ok { pf with
                annot := ann3
                metadata := pf.metadata ++ md
                final := some fa.1
                init_var := some ia.1
                kw_only := dc.kw_only }
  | AttrDefault.val v =>
      match fa.2 with
      | Ann.annotated first extras =>
          (match find_field_info_arg extras with
           | some fi =>
               if !fi.is_required then
                 Except.error "Default may not be specified twice on the same field"
               else
                 Except.ok { fi with
                   default := v
                   annot := first
                   metadata := fi.metadata ++ extras.filter (fun i => !i.isInfo) }
           | Option.none =>
               FieldInfo.init { annot := some (Ann.annotated first extras), default := v,
                                final := some fa.1 })
      | b => FieldInfo.init { annot := some b, default := v, final := some fa.1 }

/-- Models `_utils.smart_deepcopy` (external deep-copy utility, outside
the core per the spec): at the level of embedded values a deep copy is
the equal value itself (aliasing is not modelled). -/
def smart_deepcopy (v : Val) : Val := v

/-- Models `FieldInfo.get_default`: without a factory, a deep copy of the
stored default (the `Undefined` sentinel when the field is required);
with a factory, its result when `call_default_factory` is set and Python
`None` otherwise. -/
def FieldInfo.get_default (fi : FieldInfo) (call_default_factory : Bool) : Val :=
  match fi.default_factory with
  | Option.none => smart_deepcopy fi.default
  | some f => if call_default_factory then f () else Val.none

/-- Models `FieldInfo.rebuild_annotation` (here `rebuild_annot`): the bare
annotation when no metadata is present, otherwise the re-assembled
`Annotated[annotation, *metadata]` form. -/
def rebuild_annot (fi : FieldInfo) : Option Ann :=
  if fi.metadata.isEmpty then fi.annot
  else some (Ann.annotated fi.annot fi.metadata)

/-- Models `ModelPrivateAttr`: a private attribute descriptor. -/
structure ModelPrivateAttr where
  default : Val := Val.undefined
  default_factory : Option (Unit → Val) := Option.none

/-- Models the `PrivateAttr` constructor: a non-`Undefined` default (no
`Ellipsis` normalisation here) combined with a factory is rejected. -/
def PrivateAttr (default : Val := Val.undefined)
    (default_factory : Option (Unit → Val) := Option.none) :
    Except String ModelPrivateAttr :=
  if !default.isUndefined && default_factory.isSome then
    Except.error "cannot specify both default and default_factory"
  else
    Except.ok { default := default, default_factory := default_factory }

/-- A concrete default in the sense of the specification: a value that is
neither the `Undefined` sentinel nor the `Ellipsis` required-marker. -/
def concreteDefault (v : Val) : Bool := !v.isUndefined && !v.isEllipsis


/-- The metadata-extraction error always carries the "used twice"
message. -/
theorem extract_metadata_error_msg (a : Option Ann) (e : String)
    (h : extract_metadata a = Except.error e) :
    e = "Field may not be used twice on the same field" := by
  rcases a with _ | a
  · simp [extract_metadata] at h
  · cases a <;> simp [extract_metadata] at h
    case annotated first extras =>
      rcases hf : (find_field_info_arg extras).isSome with _ | _ <;> simp [hf] at h
      exact h.symm

/-- A sample descriptor with no default and no factory (a required one). -/
def fiRequired : FieldInfo := {}

/-- A sample descriptor that carries a concrete default. -/
def fiWithDefault : FieldInfo := { default := Val.int 7 }

/-- Claim C7: calling the builder with `gt=5` and `pattern="^a"` produces a
descriptor whose metadata list is exactly the dedicated greater-than token
followed by the shared general-metadata token carrying the pattern. -/
theorem C7_constraint_routing :
    Except.map (fun p => (Prod.snd p).metadata) (Field { gt := some 5, pattern := some "^a" }) =
      Except.ok [AnnItem.gt 5,
                 AnnItem.generalMetadata (some "^a") Option.none Option.none Option.none] := rfl

/-- Claim C8: `min_items=3` without `min_length` yields the min-length-3
token and the deprecation warning; `min_items=3` with `min_length=5`
yields the min-length-5 token (the new-style option wins). -/
theorem C8_deprecated_items :
    Except.map (fun p => (Prod.fst p, (Prod.snd p).metadata))
        (Field { extra := { min_items := some 3 } }) =
      Except.ok (["`min_items` is deprecated and will be removed, use `min_length` instead"],
                 [AnnItem.minLen 3]) ∧
    Except.map (fun p => (Prod.fst p, (Prod.snd p).metadata))
        (Field { min_length := some 5, extra := { min_items := some 3 } }) =
      Except.ok (["`min_items` is deprecated and will be removed, use `min_length` instead"],
                 [AnnItem.minLen 5]) := ⟨rfl, rfl⟩

/-- Claim C9: `get_default` returns a deep copy of the stored default when
no factory is set (the `Undefined` sentinel when required), the factory
result when the caller opts in, and the neutral Python `None` when a
factory is set but the caller does not opt in. -/
theorem C9_get_default :
    ∀ (fi : FieldInfo) (f : Unit → Val) (b : Bool),
      (fi.default_factory = Option.none →
        FieldInfo.get_default fi b = smart_deepcopy fi.default) ∧
      (fi.default_factory = some f →
        FieldInfo.get_default fi true = f () ∧ FieldInfo.get_default fi false = Val.none) := by
  intro fi f b
  constructor
  · intro h
    simp [FieldInfo.get_default, h]
  · intro h
    simp [FieldInfo.get_default, h]

/-- Witness for C9 at concrete descriptors. -/
theorem C9_witness :
    (FieldInfo.get_default { default := Val.int 3 } false = smart_deepcopy (Val.int 3)) ∧
    (FieldInfo.get_default { default_factory := some (fun _ => Val.int 9) } true = Val.int 9) ∧
    (FieldInfo.get_default { default_factory := some (fun _ => Val.int 9) } false = Val.none) :=
  ⟨(C9_get_default { default := Val.int 3 } (fun _ => Val.int 9) false).1 rfl,
   ((C9_get_default { default_factory := some (fun _ => Val.int 9) } (fun _ => Val.int 9) false).2 rfl).1,
   ((C9_get_default { default_factory := some (fun _ => Val.int 9) } (fun _ => Val.int 9) false).2 rfl).2⟩

/-- Counterexample to claim C10 as stated: the embedded-descriptor
branch of the annotation+default path (line 350 of the source,
`new_field_info.default = default`) stores a supplied `Ellipsis` default
raw, without normalising it to the `Undefined` sentinel, so the
resulting descriptor is not required. -/
theorem C10_counterexample :
    from_annotated_attribute (Ann.annotated (some (Ann.base "int")) [AnnItem.info fiRequired])
        (AttrDefault.val Val.ellipsis) =
      Except.ok { fiRequired with
                  default := Val.ellipsis
                  annot := some (Ann.base "int")
                  metadata := [] } ∧
    FieldInfo.is_required { fiRequired with
                            default := Val.ellipsis
                            annot := some (Ann.base "int")
                            metadata := [] } = false := ⟨rfl, rfl⟩

/-- Claim C10 (amended): the general constructor normalises an `Ellipsis`
default to the `Undefined` sentinel — construction behaves exactly as if
no default had been supplied, the stored default is `Undefined`, and, in
the absence of a factory, the resulting descriptor is required — but the
embedded-descriptor branch of the annotation+default path stores the
supplied default raw, so an `Ellipsis` default there is kept as
`Ellipsis` and the resulting descriptor is not required. -/
theorem C10_ellipsis_default :
    (∀ (k : FieldInfoKwargs),
      FieldInfo.init { k with default := Val.ellipsis } =
        FieldInfo.init { k with default := Val.undefined } ∧
      (∀ r, FieldInfo.init { k with default := Val.ellipsis } = Except.ok r →
        r.default = Val.undefined) ∧
      (k.default_factory = Option.none →
        ∀ r, FieldInfo.init { k with default := Val.ellipsis } = Except.ok r →
          FieldInfo.is_required r = true))
  ∧ (∀ (first : Option Ann) (extras : List AnnItem) (fi : FieldInfo),
      find_field_info_arg extras = some fi → FieldInfo.is_required fi = true →
      ∃ r, from_annotated_attribute (Ann.annotated first extras) (AttrDefault.val Val.ellipsis) =
             Except.ok r ∧ r.default = Val.ellipsis ∧ FieldInfo.is_required r = false) := by
  constructor
  case right =>
    intro first extras fi hfind hreq
    have h : from_annotated_attribute (Ann.annotated first extras) (AttrDefault.val Val.ellipsis) =
        Except.ok { fi with
                    default := Val.ellipsis
                    annot := first
                    metadata := fi.metadata ++ extras.filter (fun i => !i.isInfo) } := by
      simp [from_annotated_attribute, hfind, hreq]
    exact ⟨_, h, rfl, rfl⟩
  case left =>
  intro k
  cases hx : extract_metadata k.annot with
  | error e =>
      refine ⟨by simp [FieldInfo.init, hx], ?_, ?_⟩
      · intro r h
        simp [FieldInfo.init, hx] at h
      · intro _ r h
        simp [FieldInfo.init, hx] at h
  | ok p =>
      obtain ⟨ann1, annMd⟩ := p
      cases hf : k.default_factory with
      | some f =>
          refine ⟨by simp [FieldInfo.init, hx, collect_metadata, Val.isEllipsis, Val.isUndefined, hf], ?_, ?_⟩
          · intro r h
            simp [FieldInfo.init, hx, Val.isEllipsis, Val.isUndefined, hf] at h
            rw [← h]
          · intro hcon
            simp at hcon
      | none =>
          refine ⟨by simp [FieldInfo.init, hx, collect_metadata, Val.isEllipsis, Val.isUndefined, hf], ?_, ?_⟩
          · intro r h
            simp [FieldInfo.init, hx, Val.isEllipsis, Val.isUndefined, hf] at h
            rw [← h]
          · intro _ r h
            simp [FieldInfo.init, hx, Val.isEllipsis, Val.isUndefined, hf] at h
            rw [← h]
            simp [FieldInfo.is_required, hf, Val.isUndefined]

/-- Witness for C10 (amended) at concrete constructions: the general
constructor normalises `Ellipsis` away, while the embedded-descriptor
path keeps it and yields a non-required descriptor. -/
theorem C10_witness :
    FieldInfo.init { default := Val.ellipsis } = FieldInfo.init { default := Val.undefined } ∧
    (∃ r, FieldInfo.init { default := Val.ellipsis } = Except.ok r ∧
          r.default = Val.undefined ∧ FieldInfo.is_required r = true) ∧
    (∃ r, from_annotated_attribute (Ann.annotated (some (Ann.base "int")) [AnnItem.info fiRequired])
            (AttrDefault.val Val.ellipsis) = Except.ok r ∧
          r.default = Val.ellipsis ∧ FieldInfo.is_required r = false) :=
  ⟨(C10_ellipsis_default.1 {}).1,
   ⟨_, rfl, (C10_ellipsis_default.1 {}).2.1 _ rfl, (C10_ellipsis_default.1 {}).2.2 rfl _ rfl⟩,
   C10_ellipsis_default.2 (some (Ann.base "int")) [AnnItem.info fiRequired] fiRequired rfl rfl⟩


/-- Claim C2: through the annotation+default path with a plain default
value, an annotation embedding a required descriptor is resolved by
copying it with the supplied default; an annotation embedding a
non-required descriptor is rejected with the double-default error. -/
theorem C2_default_twice :
    ∀ (first : Option Ann) (extras : List AnnItem) (fi : FieldInfo) (v : Val),
      find_field_info_arg extras = some fi →
      ((FieldInfo.is_required fi = true →
          from_annotated_attribute (Ann.annotated first extras) (AttrDefault.val v) =
            Except.ok { fi with
                        default := v
                        annot := first
                        metadata := fi.metadata ++ extras.filter (fun i => !i.isInfo) })
        ∧ (FieldInfo.is_required fi = false →
          from_annotated_attribute (Ann.annotated first extras) (AttrDefault.val v) =
            Except.error "Default may not be specified twice on the same field")) := by
  intro first extras fi v hfind
  constructor
  · intro hreq
    simp [from_annotated_attribute, hfind, hreq]
  · intro hreq
    simp [from_annotated_attribute, hfind, hreq]

/-- Witness for C2: a required embedded descriptor accepts the default,
a defaulted one is rejected. -/
theorem C2_witness :
    from_annotated_attribute (Ann.annotated (some (Ann.base "int")) [AnnItem.info fiRequired])
        (AttrDefault.val (Val.int 5)) =
      Except.ok { fiRequired with
                  default := Val.int 5
                  annot := some (Ann.base "int")
                  metadata := [] } ∧
    from_annotated_attribute (Ann.annotated (some (Ann.base "int")) [AnnItem.info fiWithDefault])
        (AttrDefault.val (Val.int 5)) =
      Except.error "Default may not be specified twice on the same field" :=
  ⟨(C2_default_twice (some (Ann.base "int")) [AnnItem.info fiRequired] fiRequired (Val.int 5) rfl).1 rfl,
   (C2_default_twice (some (Ann.base "int")) [AnnItem.info fiWithDefault] fiWithDefault (Val.int 5) rfl).2 rfl⟩

/-- Claim C5: for a descriptor with non-empty metadata (whose metadata,
as the engine builds it, never contains an embedded descriptor),
`rebuild_annot` re-assembles the `Annotated` form, and re-extraction via
the bare-annotation path reproduces the same annotation and the same
metadata list in the same order. -/
theorem C5_roundtrip :
    ∀ (fi : FieldInfo),
      fi.metadata ≠ [] →
      find_field_info_arg fi.metadata = Option.none →
      rebuild_annot fi = some (Ann.annotated fi.annot fi.metadata) ∧
      ∃ r, from_annot (Ann.annotated fi.annot fi.metadata) = Except.ok r ∧
           r.annot = fi.annot ∧ r.metadata = fi.metadata := by
  intro fi hmd hfind
  constructor
  · simp [rebuild_annot, hmd]
  · have h : from_annot (Ann.annotated fi.annot fi.metadata) =
        Except.ok { annot := fi.annot
                    final := some (isFinalvarOpt fi.annot)
                    metadata := fi.metadata } := by
      simp [from_annot, hfind, FieldInfo.init, extract_metadata, collect_metadata,
            Val.isEllipsis, Val.isUndefined]
    exact ⟨_, h, rfl, rfl⟩

/-- Witness for C5 at a descriptor with one metadata token. -/
theorem C5_witness :
    rebuild_annot { metadata := [AnnItem.gt 1] } =
      some (Ann.annotated Option.none [AnnItem.gt 1]) ∧
    ∃ r, from_annot (Ann.annotated Option.none [AnnItem.gt 1]) = Except.ok r ∧
         r.annot = Option.none ∧ r.metadata = [AnnItem.gt 1] :=
  C5_roundtrip { metadata := [AnnItem.gt 1] } (by simp) rfl

/-- Claim C6: a bare annotation (no `Annotated` wrapper, no `Final`
wrapper) with no default yields a required descriptor with empty
constraint metadata whose `rebuild_annot` returns the annotation
unchanged. -/
theorem C6_bare_annotation_fresh :
    ∀ (a : Ann), isAnnotated a = false → isFinalvar a = false →
      ∃ r, from_annot a = Except.ok r ∧ FieldInfo.is_required r = true ∧
           r.metadata = [] ∧ rebuild_annot r = some a := by
  intro a ha hf
  cases a with
  | base t => exact ⟨_, rfl, rfl, rfl, rfl⟩
  | noneTy => exact ⟨_, rfl, rfl, rfl, rfl⟩
  | anyTy => exact ⟨_, rfl, rfl, rfl, rfl⟩
  | finalBare => simp [isFinalvar] at hf
  | finalOf b => simp [isFinalvar] at hf
  | initVarBare => exact ⟨_, rfl, rfl, rfl, rfl⟩
  | initVarOf b => exact ⟨_, rfl, rfl, rfl, rfl⟩
  | annotated first extras => simp [isAnnotated] at ha

/-- Witness for C6 at the annotation `int`. -/
theorem C6_witness :
    ∃ r, from_annot (Ann.base "int") = Except.ok r ∧ FieldInfo.is_required r = true ∧
         r.metadata = [] ∧ rebuild_annot r = some (Ann.base "int") :=
  C6_bare_annotation_fresh (Ann.base "int") rfl rfl


/-- Counterexample to claim C3 as stated: an annotation embedding two
pre-built descriptors is accepted (not rejected) by the bare-annotation
construction path `from_annotation`, which silently uses the first
embedded descriptor and drops the second from the metadata. -/
theorem C3_counterexample :
    (from_annot (Ann.annotated (some (Ann.base "int"))
        [AnnItem.info fiRequired, AnnItem.info fiWithDefault])).toBool = true := rfl

/-- Claim C3 (amended): the "Field may not be used twice" error is raised
exactly by the paths that run metadata extraction while a descriptor is
already present from another source — direct construction with an
annotated annotation embedding any descriptor, and the annotation+default
path whose default is itself a descriptor — while `from_annotation`
accepts an annotation embedding one or more descriptors, copying the
first and dropping every embedded descriptor from the metadata. -/
theorem C3_field_used_twice :
    (∀ (k : FieldInfoKwargs) (first : Option Ann) (extras : List AnnItem),
        k.annot = some (Ann.annotated first extras) →
        (find_field_info_arg extras).isSome = true →
        FieldInfo.init k = Except.error "Field may not be used twice on the same field")
  ∧ (∀ (first : Option Ann) (extras : List AnnItem) (fiD : FieldInfo),
        (find_field_info_arg extras).isSome = true →
        from_annotated_attribute (Ann.annotated first extras) (AttrDefault.info fiD) =
          Except.error "Field may not be used twice on the same field")
  ∧ (∀ (first : Option Ann) (extras : List AnnItem) (fi : FieldInfo),
        find_field_info_arg extras = some fi →
        from_annot (Ann.annotated first extras) =
          Except.ok { fi with
            annot := first
            final := some (isFinalvarOpt first)
            metadata := fi.metadata ++ extras.filter (fun i => !i.isInfo) }) := by
  refine ⟨?_, ?_, ?_⟩
  · intro k first extras hk hfind
    simp [FieldInfo.init, extract_metadata, hk, hfind]
  · intro first extras fiD hfind
    simp [from_annotated_attribute, extract_metadata, hfind]
  · intro first extras fi hfind
    simp [from_annot, hfind]

/-- Witness for C3 (amended) at concrete inputs: one embedded descriptor
is rejected by direct construction and by the descriptor-as-default path,
while two embedded descriptors are accepted by `from_annotation`. -/
theorem C3_witness :
    FieldInfo.init { annot := some (Ann.annotated (some (Ann.base "int"))
        [AnnItem.info fiRequired]) } =
      Except.error "Field may not be used twice on the same field" ∧
    from_annotated_attribute (Ann.annotated (some (Ann.base "int")) [AnnItem.info fiRequired])
        (AttrDefault.info fiWithDefault) =
      Except.error "Field may not be used twice on the same field" ∧
    from_annot (Ann.annotated (some (Ann.base "int"))
        [AnnItem.info fiRequired, AnnItem.info fiWithDefault]) =
      Except.ok { fiRequired with
        annot := some (Ann.base "int")
        final := some false
        metadata := [] } :=
  ⟨C3_field_used_twice.1 _ (some (Ann.base "int")) [AnnItem.info fiRequired] rfl rfl,
   C3_field_used_twice.2.1 (some (Ann.base "int")) [AnnItem.info fiRequired] fiWithDefault rfl,
   C3_field_used_twice.2.2 (some (Ann.base "int"))
     [AnnItem.info fiRequired, AnnItem.info fiWithDefault] fiRequired rfl⟩

/-- Counterexample to claim C4 as stated: a caller-supplied
`alias_priority` of 0 together with an alias is not honoured as 0 — the
truthiness-based fallback `alias_priority or 2` replaces it by 2. -/
theorem C4_counterexample :
    Except.map (fun p => (Prod.snd p).alias_priority)
        (Field { alias' := some "x", alias_priority := some 0 }) = Except.ok (some 2) ∧
    Except.map (fun p => (Prod.snd p).alias_priority)
        (Field { alias' := some "x", alias_priority := some 0 }) ≠ Except.ok (some 0) := by
  refine ⟨rfl, ?_⟩
  intro h
  rw [show Except.map (fun p => (Prod.snd p).alias_priority)
        (Field { alias' := some "x", alias_priority := some 0 }) =
      Except.ok (some 2) from rfl] at h
  simp at h

/-- Claim C4 (amended): in every successful descriptor construction that
supplies an alias (lines 186-188 of the source constructor, which every
construction path routes through), the resulting `alias_priority` is 2
when the caller supplies no priority, the caller's value when it is
nonzero, and 2 (not 0) when the caller supplies 0, because the source's
truthiness-based fallback `alias_priority or 2` treats 0 as unset. -/
theorem C4_alias_priority :
    ∀ (k : FieldInfoKwargs) (r : FieldInfo) (s : String),
      FieldInfo.init k = Except.ok r → k.alias' = some s →
      r.alias_priority = some (match k.alias_priority with
                               | some p => if p = 0 then 2 else p
                               | Option.none => 2) := by
  intro k r s hI halias
  unfold FieldInfo.init at hI
  simp only [halias, Option.isSome_some, eq_self_iff_true, if_true, ite_true] at hI
  split at hI
  · exact absurd hI (by simp)
  · split at hI
    · split at hI
      · exact absurd hI (by simp)
      · rw [Except.ok.injEq] at hI
        rw [← hI]
    · split at hI
      · exact absurd hI (by simp)
      · rw [Except.ok.injEq] at hI
        rw [← hI]

/-- Witness for C4 (amended): at alias "x" with caller priority 0 the
resolved priority is 2. -/
theorem C4_witness :
    ∃ r, FieldInfo.init { alias' := some "x", alias_priority := some 0 } = Except.ok r ∧
      r.alias_priority = some 2 :=
  ⟨_, rfl, C4_alias_priority { alias' := some "x", alias_priority := some 0 } _ "x" rfl rfl⟩


/-- A mapped `Except` is an error exactly when the underlying one is. -/
theorem except_map_eq_error {α β : Type} (f : α → β) (x : Except String α) (m : String) :
    Except.map f x = Except.error m ↔ x = Except.error m := by
  cases x <;> simp [Except.map]

/-- The constructor raises the mutual-exclusion error exactly when
metadata extraction succeeds, the (Ellipsis-normalised) default is
concrete, and a factory is present. -/
theorem init_both_default_iff (k : FieldInfoKwargs) :
    FieldInfo.init k = Except.error "cannot specify both default and default_factory" ↔
      ((extract_metadata k.annot).toBool = true ∧ concreteDefault k.default = true ∧
       (k.default_factory).isSome = true) := by
  cases hx : extract_metadata k.annot with
  | error e =>
      have he := extract_metadata_error_msg k.annot e hx
      subst he
      constructor
      · intro h
        unfold FieldInfo.init at h
        rw [hx] at h
        simp at h
      · rintro ⟨h1, -, -⟩
        simp [Except.toBool] at h1
  | ok p =>
      obtain ⟨ann1, annMd⟩ := p
      unfold FieldInfo.init
      rw [hx]
      cases hv : k.default <;> cases hf : k.default_factory <;>
        simp [concreteDefault, Val.isEllipsis, Val.isUndefined, Except.toBool]

/-- The builder raises the mutual-exclusion error exactly when no removed
legacy option and no invalid alias shape pre-empts it, the default is
concrete, and a factory is present. -/
theorem Field_both_default_iff (a : FieldArgs) :
    Field a = Except.error "cannot specify both default and default_factory" ↔
      ((a.extra.const).isSome = false ∧ (a.extra.unique_items).isSome = false ∧
       (a.extra.regex).isSome = false ∧ validationAliasShapeOk a.validation_alias = true ∧
       concreteDefault a.default = true ∧ (a.default_factory).isSome = true) := by
  cases h1 : (a.extra.const).isSome with
  | true => simp [Field, h1]
  | false =>
    cases h2 : (a.extra.unique_items).isSome with
    | true => simp [Field, h1, h2]
    | false =>
      cases h3 : (a.extra.regex).isSome with
      | true => simp [Field, h1, h2, h3]
      | false =>
        cases h4 : validationAliasShapeOk a.validation_alias with
        | false => simp [Field, h1, h2, h3, h4]
        | true =>
            simp [Field, h1, h2, h3, h4, except_map_eq_error, FieldInfo.from_field,
                  init_both_default_iff, extract_metadata, Except.toBool]

/-- The dataclass translation surfaces the mutual-exclusion error exactly
when its inner builder call does (the later annotation extraction can
only raise the different "used twice" message). -/
theorem from_dataclass_field_error_mutual (dc : DCField) :
    from_dataclass_field dc = Except.error "cannot specify both default and default_factory" ↔
      Field { dc.metadata with
              default := dc.default.getD Val.undefined
              default_factory := dc.default_factory
              repr := dc.repr } =
        Except.error "cannot specify both default and default_factory" := by
  unfold from_dataclass_field
  cases hF : Field { dc.metadata with
      default := dc.default.getD Val.undefined
      default_factory := dc.default_factory
      repr := dc.repr } with
  | error e => simp
  | ok p =>
      obtain ⟨ws, field⟩ := p
      cases hE : extract_metadata dc.type with
      | error e =>
          have he := extract_metadata_error_msg dc.type e hE
          subst he
          simp [hE]
      | ok q =>
          obtain ⟨ann2, md⟩ := q
          simp [hE]

/-- Counterexample to claim C1 as stated: `PrivateAttr` does not
normalise the `Ellipsis` literal, so a private attribute supplied with
`Ellipsis` (not a concrete default) together with a factory fails with
the mutual-exclusion error even though at most one of
{concrete default, factory} was supplied. -/
theorem C1_counterexample :
    PrivateAttr Val.ellipsis (some (fun _ => Val.int 0)) =
      Except.error "cannot specify both default and default_factory" ∧
    concreteDefault Val.ellipsis = false := ⟨rfl, rfl⟩

/-- Claim C1 (amended): on every construction path the mutual-exclusion
error is raised exactly when a default and a factory are both supplied,
where the descriptor paths (direct constructor, builder - unless a
removed legacy option or an invalid alias shape pre-empts it - and
dataclass translation) first normalise an `Ellipsis` default to `Unset`
and so accept `Ellipsis` plus a factory, while `PrivateAttr` performs no
such normalisation and rejects any non-`Unset` default (including
`Ellipsis`) combined with a factory; in all other combinations the check
passes. -/
theorem C1_mutual_exclusion :
    (∀ k : FieldInfoKwargs,
        FieldInfo.init k = Except.error "cannot specify both default and default_factory" ↔
          ((extract_metadata k.annot).toBool = true ∧ concreteDefault k.default = true ∧
           (k.default_factory).isSome = true))
  ∧ (∀ a : FieldArgs,
        Field a = Except.error "cannot specify both default and default_factory" ↔
          ((a.extra.const).isSome = false ∧ (a.extra.unique_items).isSome = false ∧
           (a.extra.regex).isSome = false ∧ validationAliasShapeOk a.validation_alias = true ∧
           concreteDefault a.default = true ∧ (a.default_factory).isSome = true))
  ∧ (∀ dc : DCField,
        from_dataclass_field dc = Except.error "cannot specify both default and default_factory" ↔
          ((dc.metadata.extra.const).isSome = false ∧
           (dc.metadata.extra.unique_items).isSome = false ∧
           (dc.metadata.extra.regex).isSome = false ∧
           validationAliasShapeOk dc.metadata.validation_alias = true ∧
           concreteDefault (dc.default.getD Val.undefined) = true ∧
           (dc.default_factory).isSome = true))
  ∧ (∀ (d : Val) (f : Option (Unit → Val)),
        PrivateAttr d f = Except.error "cannot specify both default and default_factory" ↔
          (d.isUndefined = false ∧ f.isSome = true)) := by
  refine ⟨init_both_default_iff, Field_both_default_iff, ?_, ?_⟩
  · intro dc
    rw [from_dataclass_field_error_mutual, Field_both_default_iff]
  · intro d f
    cases hd : d.isUndefined <;> cases f <;> simp [PrivateAttr, hd]

/-- Witness for C1 (amended): both concrete default and factory fail on
the constructor and on `PrivateAttr`; a factory alone succeeds on both. -/
theorem C1_witness :
    FieldInfo.init { default := Val.int 1, default_factory := some (fun _ => Val.int 2) } =
      Except.error "cannot specify both default and default_factory" ∧
    PrivateAttr (Val.int 1) (some (fun _ => Val.int 2)) =
      Except.error "cannot specify both default and default_factory" ∧
    ¬(FieldInfo.init { default_factory := some (fun _ => Val.int 2) } =
        Except.error "cannot specify both default and default_factory") ∧
    ¬(PrivateAttr Val.undefined (some (fun _ => Val.int 2)) =
        Except.error "cannot specify both default and default_factory") :=
  ⟨(C1_mutual_exclusion.1 _).mpr ⟨rfl, rfl, rfl⟩,
   (C1_mutual_exclusion.2.2.2 _ _).mpr ⟨rfl, rfl⟩,
   fun h => by
     have := (C1_mutual_exclusion.1 _).mp h
     simp [concreteDefault, Val.isUndefined, Val.isEllipsis] at this,
   fun h => by
     have := (C1_mutual_exclusion.2.2.2 _ _).mp h
     simp [Val.isUndefined] at this⟩

end Pydantic
